import Mathlib

/-!
Shallow embedding of `lid-backlightd` (src/src/main.rs): a daemon that dims a
laptop backlight when the lid closes and restores it when the lid opens.

Modelling conventions:
  * Filesystem and D-Bus I/O are abstracted as an `Env` of typed results
    (the spec treats them as external collaborators): `listDevices` is the
    result of `list_backlight_devices()`, `readFile p` the result of
    `read_u32(p)`, and `writeFile p v` the result of `write_u32(p, v)`.
  * `anyhow::Error` chains are modelled as a list of causes (`ErrCause`);
    `.context(msg)` prepends a message cause, and `err.chain().any(io NotFound)`
    becomes `Error.hasNotFound`.
  * `Instant` and `Duration` are modelled as `Nat` milliseconds; `Env.now`
    is the wall-clock reading taken by `Instant::now()` during one event.
  * Each operation also returns the list of I/O operations (`Op`) it
    performed, in order, so that "performs no write" style statements can be
    made about the code rather than about its effects only.
  * `u32` values are modelled as `Nat`: the arithmetic the code performs on
    them (`min`, `clamp`, doubling capped at 5000 ms) never overflows `u32`
    on the ranges involved, so no modular reduction is required.
-/

/-- `BACKLIGHT_ROOT` constant from the source. -/
def BACKLIGHT_ROOT : String := "/sys/class/backlight"

/-- `DEVICE_ERROR_INTERVAL` (30 s), in milliseconds. -/
def DEVICE_ERROR_INTERVAL : Nat := 30000

/-- One cause in an `anyhow::Error` chain: an `std::io::Error` (with its
`NotFound`-ness recorded), a numeric parse error, or a plain message. -/
inductive ErrCause where
  | io (notFound : Bool)
  | parse
  | msg (text : String)
deriving DecidableEq, Repr

/-- An `anyhow::Error`: the chain of causes, outermost first. -/
structure Error where
  chain : List ErrCause
deriving DecidableEq, Repr

/-- `.context(msg)` on a `Result`: wraps the error in a new outermost cause. -/
def Error.withContext (text : String) (e : Error) : Error :=
  ⟨ErrCause.msg text :: e.chain⟩

/-- `anyhow::bail!` / `anyhow::anyhow!`: a fresh single-cause message error. -/
def anyhowMsg (text : String) : Error :=
  ⟨[ErrCause.msg text]⟩

/-- `err.chain().any(|cause| cause.downcast_ref::<io::Error>()
      .is_some_and(|io| io.kind() == NotFound))` from `handle_device_error`. -/
def Error.hasNotFound (e : Error) : Bool :=
  e.chain.any fun c =>
    match c with
    | ErrCause.io notFound => notFound
    | _ => false

/-- The `Backlight` struct: a selected device. Paths are strings. -/
structure Backlight where
  name : String
  brightness_path : String
  max_brightness : Nat
deriving DecidableEq, Repr

/-- The `Config` struct: the optional `--device` override. -/
structure Config where
  device : Option String
deriving DecidableEq, Repr

/-- The `State` struct: the engine state of the lid state machine. -/
structure State where
  device : Option Backlight
  saved_brightness : Option Nat
  restore_min : Nat
  last_device_error : Option Nat
deriving DecidableEq, Repr

/-- `State::new(restore_min)`. -/
def State.new (restore_min : Nat) : State :=
  ⟨none, none, restore_min, none⟩

/-- One I/O operation performed against the external control surface. -/
inductive Op where
  | listDevices
  | read (path : String)
  | write (path : String) (value : Nat)
deriving DecidableEq, Repr

/-- The external world, as seen during the handling of one event: the results
the filesystem-like collaborators return for each access, plus the wall clock. -/
structure Env where
  listDevices : Except Error (List String)
  readFile : String → Except Error Nat
  writeFile : String → Nat → Except Error Unit
  now : Nat

def sepSlash : String := "/"
def brightnessLeaf : String := "brightness"
def maxBrightnessLeaf : String := "max_brightness"

/-- `PathBuf::from(BACKLIGHT_ROOT).join(&name).join("brightness")`. -/
def brightnessPathOf (name : String) : String :=
  BACKLIGHT_ROOT ++ sepSlash ++ name ++ sepSlash ++ brightnessLeaf

/-- `PathBuf::from(BACKLIGHT_ROOT).join(&name).join("max_brightness")`. -/
def maxBrightnessPathOf (name : String) : String :=
  BACKLIGHT_ROOT ++ sepSlash ++ name ++ sepSlash ++ maxBrightnessLeaf

def ctxReadMaxBrightness : String := "read max_brightness"
def ctxListDevices : String := "list backlight devices"
def ctxReadBrightness : String := "read brightness"
def msgNoDevices : String := "no backlight devices found in /sys/class/backlight"
def msgRequestedNotFoundPre : String := "requested device '"
def msgRequestedNotFoundPost : String := "' not found"
def msgDeviceMissing : String := "backlight device missing"
def intelBacklightName : String := "intel_backlight"

/-- `Backlight::new(name)`: resolves the two control paths and reads the
device's maximum brightness; the read failure is wrapped in context
`read max_brightness`. Returns the performed I/O ops alongside. -/
def Backlight.new (env : Env) (name : String) : Except Error Backlight × List Op :=
  let bp := brightnessPathOf name
  let mp := maxBrightnessPathOf name
  match env.readFile mp with
  | Except.error e => (Except.error (e.withContext ctxReadMaxBrightness), [Op.read mp])
  | Except.ok m => (Except.ok ⟨name, bp, m⟩, [Op.read mp])

/-- String comparison used for `devices.sort()` (lexicographic `≤`). -/
def strLe (a b : String) : Bool := a ≤ b

/-- `discover_device(device_override)`: enumerate devices, fail if the
enumeration is empty, honour the override (failing when absent), otherwise
prefer `intel_backlight`, otherwise sort and take the first. -/
def discover_device (env : Env) (device_override : Option String) :
    Except Error Backlight × List Op :=
  match env.listDevices with
  | Except.error e => (Except.error (e.withContext ctxListDevices), [Op.listDevices])
  | Except.ok devices =>
    if devices.isEmpty then
      (Except.error (anyhowMsg msgNoDevices), [Op.listDevices])
    else
      let chosen : Except Error String :=
        match device_override with
        | some requested =>
          if devices.any (fun name => name == requested) then Except.ok requested
          else
            Except.error
              (anyhowMsg (msgRequestedNotFoundPre ++ requested ++ msgRequestedNotFoundPost))
        | none =>
          if devices.any (fun name => name == intelBacklightName) then
            Except.ok intelBacklightName
          else
            Except.ok ((devices.mergeSort strLe).headD (String.mk []))
      match chosen with
      | Except.error e => (Except.error e, [Op.listDevices])
      | Except.ok name =>
        let r := Backlight.new env name
        (r.1, Op.listDevices :: r.2)

/-- `State::ensure_device`: no-op when a device is selected, otherwise run
discovery and install the result. -/
def State.ensure_device (env : Env) (config : Config) (s : State) :
    Except Error Unit × State × List Op :=
  if s.device.isSome then (Except.ok (), s, [])
  else
    let r := discover_device env config.device
    match r.1 with
    | Except.error e => (Except.error e, s, r.2)
    | Except.ok d => (Except.ok (), { s with device := some d }, r.2)

/-- `State::log_device_error`: rate-limited logging; only the
`last_device_error` timestamp is functional state. -/
def State.log_device_error (now : Nat) (s : State) : State :=
  match s.last_device_error with
  | some last =>
    if now - last < DEVICE_ERROR_INTERVAL then s
    else { s with last_device_error := some now }
  | none => { s with last_device_error := some now }

/-- `State::handle_device_error`: clear the selected device when some cause in
the chain is an I/O `NotFound`, then log (rate-limited). -/
def State.handle_device_error (now : Nat) (err : Error) (s : State) : State :=
  let s1 := if err.hasNotFound then { s with device := none } else s
  State.log_device_error now s1

/-- `State::on_lid_close`: ensure a device, read the current brightness
(context `read brightness`), snapshot it into `saved_brightness` if nothing is
saved yet, then try to write `0` and fall back to writing `1`; write failures
are classified but the transition still returns `Ok`. -/
def State.on_lid_close (env : Env) (config : Config) (s : State) :
    Except Error Unit × State × List Op :=
  match State.ensure_device env config s with
  | (Except.error e, s1, t) => (Except.error e, s1, t)
  | (Except.ok _, s1, t) =>
    match s1.device with
    | none => (Except.error (anyhowMsg msgDeviceMissing), s1, t)
    | some device =>
      let bp := device.brightness_path
      match env.readFile bp with
      | Except.error e =>
        (Except.error (e.withContext ctxReadBrightness), s1, t ++ [Op.read bp])
      | Except.ok cur =>
        let s2 :=
          if s1.saved_brightness.isNone then { s1 with saved_brightness := some cur }
          else s1
        match env.writeFile bp 0 with
        | Except.ok _ =>
          (Except.ok (), s2, t ++ [Op.read bp, Op.write bp 0])
        | Except.error err =>
          let s3 := State.handle_device_error env.now err s2
          match env.writeFile bp 1 with
          | Except.ok _ =>
            (Except.ok (), s3, t ++ [Op.read bp, Op.write bp 0, Op.write bp 1])
          | Except.error err2 =>
            let s4 := State.handle_device_error env.now err2 s3
            (Except.ok (), s4, t ++ [Op.read bp, Op.write bp 0, Op.write bp 1])

/-- Rust's `x.clamp(lo, hi)` on unsigned integers (defined for `lo ≤ hi`). -/
def rustClamp (x lo hi : Nat) : Nat :=
  if x < lo then lo else if hi < x then hi else x

/-- `State::on_lid_open`: nothing saved is a no-op; otherwise ensure a device,
compute `restore = saved.clamp(restore_min.min(max), max)` and write it; on
success clear `saved_brightness`, on failure classify the error and keep the
saved value. Returns `Ok` in both write outcomes. -/
def State.on_lid_open (env : Env) (config : Config) (s : State) :
    Except Error Unit × State × List Op :=
  match s.saved_brightness with
  | none => (Except.ok (), s, [])
  | some saved =>
    match State.ensure_device env config s with
    | (Except.error e, s1, t) => (Except.error e, s1, t)
    | (Except.ok _, s1, t) =>
      match s1.device with
      | none => (Except.error (anyhowMsg msgDeviceMissing), s1, t)
      | some device =>
        let min_restore := min s1.restore_min device.max_brightness
        let restore := rustClamp saved min_restore device.max_brightness
        match env.writeFile device.brightness_path restore with
        | Except.error err =>
          let s2 := State.handle_device_error env.now err s1
          (Except.ok (), s2, t ++ [Op.write device.brightness_path restore])
        | Except.ok _ =>
          (Except.ok (), { s1 with saved_brightness := none },
            t ++ [Op.write device.brightness_path restore])

/-- `State::handle_lid_change`: dispatch on the lid event and the
`saved_brightness` guard; the two off-diagonal combinations are no-ops. -/
def State.handle_lid_change (env : Env) (config : Config) (s : State)
    (closed : Bool) : Except Error Unit × State × List Op :=
  if closed then
    if s.saved_brightness.isNone then State.on_lid_close env config s
    else (Except.ok (), s, [])
  else
    if s.saved_brightness.isSome then State.on_lid_open env config s
    else (Except.ok (), s, [])

/-- `State::restore_on_exit`: nothing saved means nothing to do; otherwise one
`on_lid_open` call. -/
def State.restore_on_exit (env : Env) (config : Config) (s : State) :
    Except Error Unit × State × List Op :=
  if s.saved_brightness.isNone then (Except.ok (), s, [])
  else State.on_lid_open env config s

/-- The tail of `main` after the select loop finishes: call
`restore_on_exit`, log (not escalate) its failure, and return `Ok(())`. -/
def mainShutdown (env : Env) (config : Config) (s : State) :
    Except Error Unit × State × List Op :=
  let r := State.restore_on_exit env config s
  (Except.ok (), r.2.1, r.2.2)

/-- The `Backoff` struct; durations in milliseconds. -/
structure Backoff where
  base : Nat
  max : Nat
  current : Nat
deriving DecidableEq, Repr

/-- `Backoff::new(base, max)`. -/
def Backoff.new (base mx : Nat) : Backoff := ⟨base, mx, base⟩

/-- `Backoff::reset`. -/
def Backoff.reset (b : Backoff) : Backoff := { b with current := b.base }

/-- `Backoff::next_delay`: return the current delay, then double it capped at
`max` for the next call. -/
def Backoff.next_delay (b : Backoff) : Nat × Backoff :=
  (b.current, { b with current := min (b.current * 2) b.max })

/-- The delays returned by `n` successive `next_delay()` calls. -/
def Backoff.delays (b : Backoff) : Nat → List Nat
  | 0 => []
  | n + 1 => (b.next_delay).1 :: (b.next_delay).2.delays n

/-- The backoff policy `run_loop` actually constructs:
`Backoff::new(250 ms, 5 s)`. -/
def runLoopBackoff : Backoff := Backoff.new 250 5000

/-- How far one iteration of `run_loop` gets before it loops around: the
system-bus connection can fail; then the proxy builder, the proxy build, or
the subscription (`receive_properties_changed`) can fail; otherwise a
subscription is established and `process_connection` pumps the stream until
it errors or ends. -/
inductive AttemptOutcome where
  | connectFailed
  | builderFailed
  | buildFailed
  | subscribeFailed
  | subscribed
deriving DecidableEq, Repr

/-- Whether the attempt got past `Connection::system()`. -/
def AttemptOutcome.connectSucceeded : AttemptOutcome → Bool
  | AttemptOutcome.connectFailed => false
  | _ => true

/-- Whether the attempt established a subscription (reached a live
`receive_properties_changed` stream). -/
def AttemptOutcome.subscriptionEstablished : AttemptOutcome → Bool
  | AttemptOutcome.subscribed => true
  | _ => false

/-- One iteration of the `loop` in `run_loop`, instrumented for the backoff:
returns (number of `reset()` calls made, delay slept, backoff state after).
Following the source: a failed `Connection::system()` goes straight to
`next_delay`; a successful connection calls `backoff.reset()` immediately,
and every later failure point (proxy builder, proxy build, subscription,
stream error/end) falls through to the single trailing `next_delay`. -/
def runLoopIter (b : Backoff) (o : AttemptOutcome) : Nat × Nat × Backoff :=
  match o with
  | AttemptOutcome.connectFailed =>
    let d := b.next_delay
    (0, d.1, d.2)
  | _ =>
    let b1 := b.reset
    let d := b1.next_delay
    (1, d.1, d.2)

/-- Total number of `reset()` calls over a whole execution of the loop. -/
def runLoopResets : Backoff → List AttemptOutcome → Nat
  | _, [] => 0
  | b, o :: rest =>
    let step := runLoopIter b o
    step.1 + runLoopResets step.2.2 rest

/-- Predicate picking out write operations, for counting writes in a trace. -/
def Op.isWrite : Op → Bool
  | Op.write _ _ => true
  | _ => false

/-- Number of write operations in a trace. -/
def writeCount (t : List Op) : Nat := t.countP Op.isWrite

theorem writeCount_nil : writeCount [] = 0 := rfl

theorem writeCount_append (t1 t2 : List Op) :
    writeCount (t1 ++ t2) = writeCount t1 + writeCount t2 := by
  simp [writeCount, List.countP_append]

/-- `Backlight::new` never writes. -/
theorem Backlight.new_writeCount (env : Env) (name : String) :
    writeCount (Backlight.new env name).2 = 0 := by
  unfold Backlight.new
  dsimp only
  split <;> simp [writeCount, Op.isWrite]

/-- `discover_device` never writes. -/
theorem discover_device_writeCount (env : Env) (o : Option String) :
    writeCount (discover_device env o).2 = 0 := by
  unfold discover_device
  cases env.listDevices with
  | error e => simp [writeCount, Op.isWrite]
  | ok devices =>
    dsimp only
    split
    · simp [writeCount, Op.isWrite]
    · split
      · simp [writeCount, Op.isWrite]
      · rename_i name heq
        have h := Backlight.new_writeCount env name
        simp only [writeCount, List.countP_cons, Op.isWrite] at h ⊢
        simp [h]

/-- `ensure_device` never writes. -/
theorem ensure_device_writeCount (env : Env) (config : Config) (s : State) :
    writeCount (State.ensure_device env config s).2.2 = 0 := by
  unfold State.ensure_device
  dsimp only
  split
  · rfl
  · split <;> simpa using discover_device_writeCount env config.device

/-- `ensure_device` with a device already selected is an immediate no-op. -/
theorem ensure_device_of_isSome (env : Env) (config : Config) (s : State)
    (h : s.device.isSome = true) :
    State.ensure_device env config s = (Except.ok (), s, []) := by
  unfold State.ensure_device
  simp [h]

/-- `ensure_device` either keeps the state or only installs a device. -/
theorem ensure_device_state_cases (env : Env) (config : Config) (s : State) :
    (State.ensure_device env config s).2.1 = s ∨
    ∃ d, (State.ensure_device env config s).2.1 = { s with device := some d } := by
  unfold State.ensure_device
  dsimp only
  split
  · exact Or.inl rfl
  · split
    · exact Or.inl rfl
    · exact Or.inr ⟨_, rfl⟩

theorem ensure_device_saved (env : Env) (config : Config) (s : State) :
    (State.ensure_device env config s).2.1.saved_brightness = s.saved_brightness := by
  rcases ensure_device_state_cases env config s with h | ⟨d, h⟩ <;> rw [h]

theorem ensure_device_restore_min (env : Env) (config : Config) (s : State) :
    (State.ensure_device env config s).2.1.restore_min = s.restore_min := by
  rcases ensure_device_state_cases env config s with h | ⟨d, h⟩ <;> rw [h]

/-- A successful `ensure_device` leaves a selected device behind. -/
theorem ensure_device_ok_device (env : Env) (config : Config) (s : State)
    (h : (State.ensure_device env config s).1 = Except.ok ()) :
    (State.ensure_device env config s).2.1.device.isSome = true := by
  revert h
  unfold State.ensure_device
  dsimp only
  split
  · rename_i h2
    intro _
    simpa using h2
  · split
    · intro h; cases h
    · intro _; rfl

/-- A failed `ensure_device` leaves the state untouched. -/
theorem ensure_device_error_state (env : Env) (config : Config) (s : State)
    (e : Error) (h : (State.ensure_device env config s).1 = Except.error e) :
    (State.ensure_device env config s).2.1 = s := by
  revert h
  unfold State.ensure_device
  dsimp only
  split
  · intro h; cases h
  · split
    · intro _; rfl
    · intro h; cases h

theorem log_device_error_saved (now : Nat) (s : State) :
    (State.log_device_error now s).saved_brightness = s.saved_brightness := by
  unfold State.log_device_error
  split
  · split <;> rfl
  · rfl

theorem log_device_error_device (now : Nat) (s : State) :
    (State.log_device_error now s).device = s.device := by
  unfold State.log_device_error
  split
  · split <;> rfl
  · rfl

theorem log_device_error_restore_min (now : Nat) (s : State) :
    (State.log_device_error now s).restore_min = s.restore_min := by
  unfold State.log_device_error
  split
  · split <;> rfl
  · rfl

theorem handle_device_error_saved (now : Nat) (err : Error) (s : State) :
    (State.handle_device_error now err s).saved_brightness = s.saved_brightness := by
  unfold State.handle_device_error
  split <;> rw [log_device_error_saved]

theorem handle_device_error_restore_min (now : Nat) (err : Error) (s : State) :
    (State.handle_device_error now err s).restore_min = s.restore_min := by
  unfold State.handle_device_error
  split <;> rw [log_device_error_restore_min]

theorem handle_device_error_device_of_notFound (now : Nat) (err : Error) (s : State)
    (h : err.hasNotFound = true) :
    (State.handle_device_error now err s).device = none := by
  unfold State.handle_device_error
  simp [h, log_device_error_device]

theorem handle_device_error_device_of_other (now : Nat) (err : Error) (s : State)
    (h : err.hasNotFound = false) :
    (State.handle_device_error now err s).device = s.device := by
  unfold State.handle_device_error
  simp [h, log_device_error_device]

/-- The first element of `mergeSort strLe` is a member of the list and a
lexicographic lower bound for it. -/
theorem mergeSort_headD_min (l : List String) (h : l ≠ []) :
    (l.mergeSort strLe).headD (String.mk []) ∈ l ∧
    ∀ x ∈ l, (l.mergeSort strLe).headD (String.mk []) ≤ x := by
  have hperm := List.mergeSort_perm l strLe
  have hne : l.mergeSort strLe ≠ [] := by
    intro hnil
    rw [hnil] at hperm
    exact h hperm.symm.eq_nil
  obtain ⟨a, t, hat⟩ := List.exists_cons_of_ne_nil hne
  have htrans : ∀ a b c : String, strLe a b → strLe b c → strLe a c := by
    intro a b c hab hbc
    simp only [strLe, decide_eq_true_eq] at hab hbc ⊢
    exact le_trans hab hbc
  have htotal : ∀ a b : String, strLe a b || strLe b a := by
    intro a b
    simp only [strLe, Bool.or_eq_true, decide_eq_true_eq]
    exact le_total a b
  have hsorted : (l.mergeSort strLe).Pairwise (fun a b => strLe a b = true) :=
    List.sorted_mergeSort htrans htotal l
  rw [hat] at hsorted hperm ⊢
  simp only [List.headD_cons]
  constructor
  · exact hperm.mem_iff.mp (List.mem_cons_self a t)
  · intro x hx
    rcases List.mem_cons.mp (hperm.mem_iff.mpr hx) with hxa | hxt
    · exact hxa ▸ le_refl a
    · have := (List.pairwise_cons.mp hsorted).1 x hxt
      simpa only [strLe, decide_eq_true_eq] using this

/-- C6: `discover_device` selection behaviour: empty enumeration fails with
`NoDevicesFound`; a preferred name is selected iff present, else
`RequestedDeviceNotFound`; with no preference, `intel_backlight` is selected
when enumerated, otherwise the lexicographically smallest name. "Selects
`n`" is expressed as: the result is exactly that of constructing the device
named `n` (`Backlight.new`). -/
theorem discover_device_selection (env : Env) (ds : List String)
    (hl : env.listDevices = Except.ok ds) :
    (ds = [] → ∀ o, (discover_device env o).1 = Except.error (anyhowMsg msgNoDevices)) ∧
    (∀ requested, ds ≠ [] → requested ∉ ds →
      (discover_device env (some requested)).1 =
        Except.error
          (anyhowMsg (msgRequestedNotFoundPre ++ requested ++ msgRequestedNotFoundPost))) ∧
    (∀ requested, requested ∈ ds →
      discover_device env (some requested) =
        ((Backlight.new env requested).1,
          Op.listDevices :: (Backlight.new env requested).2)) ∧
    (intelBacklightName ∈ ds →
      discover_device env none =
        ((Backlight.new env intelBacklightName).1,
          Op.listDevices :: (Backlight.new env intelBacklightName).2)) ∧
    (ds ≠ [] → intelBacklightName ∉ ds →
      ∃ m, m ∈ ds ∧ (∀ x ∈ ds, m ≤ x) ∧
        discover_device env none =
          ((Backlight.new env m).1, Op.listDevices :: (Backlight.new env m).2)) := by
  refine ⟨?_, ?_, ?_, ?_, ?_⟩
  · intro hds o
    subst hds
    simp [discover_device, hl]
  · intro requested hne hmem
    simp [discover_device, hl, List.isEmpty_iff, hne, hmem]
  · intro requested hmem
    have hne : ds ≠ [] := List.ne_nil_of_mem hmem
    simp [discover_device, hl, List.isEmpty_iff, hne, hmem]
  · intro hmem
    have hne : ds ≠ [] := List.ne_nil_of_mem hmem
    simp [discover_device, hl, List.isEmpty_iff, hne, hmem]
  · intro hne hmem
    obtain ⟨hm, hmin⟩ := mergeSort_headD_min ds hne
    refine ⟨(ds.mergeSort strLe).headD (String.mk []), hm, hmin, ?_⟩
    simp [discover_device, hl, List.isEmpty_iff, hne, hmem]

/-- C5: error classification clears `device` exactly when some cause in the
chain is an I/O not-found; every other engine-state field except the
log-rate-limit timestamp (`last_device_error`) is untouched. -/
theorem handle_device_error_frame (now : Nat) (err : Error) (s : State) :
    (err.hasNotFound = true → (State.handle_device_error now err s).device = none) ∧
    (err.hasNotFound = false → (State.handle_device_error now err s).device = s.device) ∧
    (State.handle_device_error now err s).saved_brightness = s.saved_brightness ∧
    (State.handle_device_error now err s).restore_min = s.restore_min :=
  ⟨fun h => handle_device_error_device_of_notFound now err s h,
   fun h => handle_device_error_device_of_other now err s h,
   handle_device_error_saved now err s,
   handle_device_error_restore_min now err s⟩

theorem backoff_delays_succ (b : Backoff) (n : Nat) :
    Backoff.delays b (n + 1) =
      b.current :: Backoff.delays { b with current := min (b.current * 2) b.max } n := rfl

theorem backoff_delays_bounded (b : Backoff) (h : b.current ≤ b.max) (n : Nat) :
    ∀ d ∈ Backoff.delays b n, d ≤ b.max := by
  induction n generalizing b with
  | zero => intro d hd; simp [Backoff.delays] at hd
  | succ m ih =>
    intro d hd
    rw [backoff_delays_succ] at hd
    rcases List.mem_cons.mp hd with hd | hd
    · exact hd ▸ h
    · exact ih { b with current := min (b.current * 2) b.max } (Nat.min_le_right _ _) d hd

theorem backoff_delays_chain (b : Backoff) (h : b.current ≤ b.max) (n : Nat) :
    List.Chain' (fun x y => x ≤ y) (Backoff.delays b n) := by
  induction n generalizing b with
  | zero => simp [Backoff.delays]
  | succ m ih =>
    cases m with
    | zero => simp [Backoff.delays]
    | succ k =>
      rw [backoff_delays_succ, backoff_delays_succ]
      apply List.chain'_cons.mpr
      constructor
      · exact Nat.le_min.mpr ⟨by omega, h⟩
      · rw [← backoff_delays_succ]
        exact ih _ (Nat.min_le_right _ _)

/-- C7: under the invariant `current ≤ max` (true of every backoff the
program constructs), successive `next_delay()` calls yield a non-decreasing
sequence bounded by `max`; each call returns the current delay and doubles
the stored delay capped at `max`; after `reset()` the next call returns
`base`. -/
theorem backoff_monotone_bounded (b : Backoff) (h : b.current ≤ b.max) (n : Nat) :
    List.Chain' (fun x y => x ≤ y) (Backoff.delays b n) ∧
    (∀ d ∈ Backoff.delays b n, d ≤ b.max) ∧
    Backoff.next_delay b = (b.current, { b with current := min (b.current * 2) b.max }) ∧
    (Backoff.reset b).next_delay.1 = b.base :=
  ⟨backoff_delays_chain b h n, backoff_delays_bounded b h n, rfl, rfl⟩

/-- C8 counterexample: in the attempt where the system-bus connection
succeeds but the proxy build fails — an attempt that fails before any
subscription is established — `run_loop` nevertheless calls `reset()`
once. -/
theorem runLoop_reset_without_subscription :
    (runLoopIter runLoopBackoff AttemptOutcome.buildFailed).1 = 1 ∧
    AttemptOutcome.subscriptionEstablished AttemptOutcome.buildFailed = false ∧
    AttemptOutcome.connectSucceeded AttemptOutcome.buildFailed = true :=
  ⟨rfl, rfl, rfl⟩

/-- C8 (amended): `reset()` is called exactly once per attempt whose
system-bus connection succeeds — regardless of whether a subscription is
later established — and never on attempts whose connection fails; over a
whole execution the number of `reset()` calls is the number of
connection-successful attempts. -/
theorem runLoop_reset_per_connection (b : Backoff) (os : List AttemptOutcome) :
    runLoopResets b os = (os.filter AttemptOutcome.connectSucceeded).length ∧
    ∀ o, (runLoopIter b o).1 =
      if AttemptOutcome.connectSucceeded o then 1 else 0 := by
  constructor
  · induction os generalizing b with
    | nil => rfl
    | cons o rest ih =>
      cases o <;>
        simp [runLoopResets, runLoopIter, AttemptOutcome.connectSucceeded,
          List.filter_cons, ih, Nat.add_comm]
  · intro o
    cases o <;> rfl

/-- With a value saved and a device already selected, `on_lid_open` performs
exactly one write: the clamped restore target. -/
theorem on_lid_open_trace_of_device (env : Env) (config : Config) (s : State)
    (dev : Backlight) (saved : Nat)
    (hsaved : s.saved_brightness = some saved)
    (hdev : s.device = some dev) :
    (State.on_lid_open env config s).2.2 =
      [Op.write dev.brightness_path
        (rustClamp saved (min s.restore_min dev.max_brightness) dev.max_brightness)] := by
  unfold State.on_lid_open
  rw [hsaved]
  dsimp only
  rw [ensure_device_of_isSome env config s (by simp [hdev])]
  dsimp only
  rw [hdev]
  dsimp only
  cases hw : env.writeFile dev.brightness_path
      (rustClamp saved (min s.restore_min dev.max_brightness) dev.max_brightness) <;>
    simp [hw]

/-- C1: an open event handled with `saved_brightness = some saved` and a
selected device of maximum `max` writes exactly
`clamp(saved, min(restore_floor, max), max)` to the brightness control; at
`max = 100`, `restore_floor = 1` the target for `saved = 50` is 50 and for
`saved = 0` is 1, and at `restore_floor = 10` the target for `saved = 5`
is 10. -/
theorem lid_open_restore_target (env : Env) (config : Config) (s : State)
    (dev : Backlight) (saved : Nat)
    (hsaved : s.saved_brightness = some saved)
    (hdev : s.device = some dev) :
    (State.handle_lid_change env config s false).2.2 =
      [Op.write dev.brightness_path
        (rustClamp saved (min s.restore_min dev.max_brightness) dev.max_brightness)] ∧
    rustClamp 50 (min 1 100) 100 = 50 ∧
    rustClamp 0 (min 1 100) 100 = 1 ∧
    rustClamp 5 (min 10 100) 100 = 10 := by
  refine ⟨?_, by decide, by decide, by decide⟩
  have hlc : State.handle_lid_change env config s false = State.on_lid_open env config s := by
    simp [State.handle_lid_change, hsaved]
  rw [hlc]
  exact on_lid_open_trace_of_device env config s dev saved hsaved hdev

/-- C2: for an open event with a saved value (device ensured, selected
device `dev`): a successful write of the restore target clears
`saved_brightness`; a failed write leaves `saved_brightness` exactly as it
was (the handler still returns `Ok`), and — as long as the device is still
selected — the next open event attempts the very same write again. -/
theorem lid_open_write_result (env : Env) (config : Config) (s s1 : State)
    (t : List Op) (dev : Backlight) (saved : Nat)
    (hsaved : s.saved_brightness = some saved)
    (hens : State.ensure_device env config s = (Except.ok (), s1, t))
    (hdev : s1.device = some dev) :
    (env.writeFile dev.brightness_path
        (rustClamp saved (min s1.restore_min dev.max_brightness) dev.max_brightness) =
          Except.ok () →
      State.handle_lid_change env config s false =
        (Except.ok (), { s1 with saved_brightness := none },
          t ++ [Op.write dev.brightness_path
            (rustClamp saved (min s1.restore_min dev.max_brightness)
              dev.max_brightness)])) ∧
    (∀ e, env.writeFile dev.brightness_path
        (rustClamp saved (min s1.restore_min dev.max_brightness) dev.max_brightness) =
          Except.error e →
      (State.handle_lid_change env config s false).1 = Except.ok () ∧
      (State.handle_lid_change env config s false).2.1.saved_brightness = some saved ∧
      ((State.handle_lid_change env config s false).2.1.device = some dev →
        (State.handle_lid_change env config
            (State.handle_lid_change env config s false).2.1 false).2.2 =
          [Op.write dev.brightness_path
            (rustClamp saved (min s1.restore_min dev.max_brightness)
              dev.max_brightness)])) := by
  have hs1saved : s1.saved_brightness = some saved := by
    have hpres := ensure_device_saved env config s
    rw [hens] at hpres
    simpa [hsaved] using hpres
  have hlc : State.handle_lid_change env config s false = State.on_lid_open env config s := by
    simp [State.handle_lid_change, hsaved]
  rw [hlc]
  unfold State.on_lid_open
  rw [hsaved]
  dsimp only
  rw [hens]
  dsimp only
  rw [hdev]
  dsimp only
  constructor
  · intro hw
    rw [hw]
  · intro e hw
    rw [hw]
    dsimp only
    refine ⟨rfl, ?_, ?_⟩
    · rw [handle_device_error_saved, hs1saved]
    · intro hdev2
      have hsaved2 : (State.handle_device_error env.now e s1).saved_brightness = some saved := by
        rw [handle_device_error_saved, hs1saved]
      have hlc2 : State.handle_lid_change env config (State.handle_device_error env.now e s1) false =
          State.on_lid_open env config (State.handle_device_error env.now e s1) := by
        simp [State.handle_lid_change, hsaved2]
      rw [hlc2]
      rw [on_lid_open_trace_of_device env config _ dev saved hsaved2 hdev2]
      rw [handle_device_error_restore_min]

/-- C3: a closed event whose brightness read succeeds stores the read value
in `saved_brightness`, then attempts a write of `0` and — only if that
fails — a single fallback write of `1`; whatever the write outcomes, the
handler returns `Ok` and `saved_brightness` stays set to the read value. -/
theorem lid_close_read_ok_spec (env : Env) (config : Config) (s s1 : State)
    (t : List Op) (dev : Backlight) (cur : Nat)
    (hsaved : s.saved_brightness = none)
    (hens : State.ensure_device env config s = (Except.ok (), s1, t))
    (hdev : s1.device = some dev)
    (hread : env.readFile dev.brightness_path = Except.ok cur) :
    (State.handle_lid_change env config s true).1 = Except.ok () ∧
    (State.handle_lid_change env config s true).2.1.saved_brightness = some cur ∧
    (State.handle_lid_change env config s true).2.2 =
      t ++ [Op.read dev.brightness_path, Op.write dev.brightness_path 0] ++
        (match env.writeFile dev.brightness_path 0 with
         | Except.ok _ => []
         | Except.error _ => [Op.write dev.brightness_path 1]) := by
  have hs1saved : s1.saved_brightness = none := by
    have hpres := ensure_device_saved env config s
    rw [hens] at hpres
    simpa [hsaved] using hpres
  have hlc : State.handle_lid_change env config s true = State.on_lid_close env config s := by
    simp [State.handle_lid_change, hsaved]
  rw [hlc]
  unfold State.on_lid_close
  rw [hens]
  dsimp only
  rw [hdev]
  dsimp only
  rw [hread]
  dsimp only
  simp only [hs1saved, Option.isNone_none, if_true]
  cases hw0 : env.writeFile dev.brightness_path 0 with
  | error e0 =>
    dsimp only
    cases hw1 : env.writeFile dev.brightness_path 1 with
    | error e1 =>
      refine ⟨rfl, ?_, by simp⟩
      simp [handle_device_error_saved]
    | ok u =>
      refine ⟨rfl, ?_, by simp⟩
      simp [handle_device_error_saved]
  | ok u =>
    refine ⟨rfl, rfl, by simp⟩

/-- After a closed event from an un-dimmed state, either a snapshot was
taken (`saved_brightness` became `Some`) or the handler failed before the
snapshot and re-running it under the same environment reproduces the same
state. -/
theorem on_lid_close_saved_or_fixed (env : Env) (config : Config) (s : State)
    (hsaved : s.saved_brightness = none) :
    (State.on_lid_close env config s).2.1.saved_brightness.isSome = true ∨
    ((State.on_lid_close env config s).2.1.saved_brightness = none ∧
      (State.on_lid_close env config
        ((State.on_lid_close env config s).2.1)).2.1 =
        (State.on_lid_close env config s).2.1) := by
  rcases hE : State.ensure_device env config s with ⟨r, s1, t⟩
  cases r with
  | error e =>
    have hs1 : s1 = s := by
      have h1 : (State.ensure_device env config s).1 = Except.error e := by rw [hE]
      have h2 := ensure_device_error_state env config s e h1
      rw [hE] at h2
      exact h2
    have hclose : State.on_lid_close env config s = (Except.error e, s1, t) := by
      unfold State.on_lid_close
      rw [hE]
    refine Or.inr ?_
    rw [hclose]
    dsimp only
    subst hs1
    exact ⟨hsaved, by rw [hclose]⟩
  | ok u =>
    have hds : s1.device.isSome = true := by
      have h1 : (State.ensure_device env config s).1 = Except.ok () := by rw [hE]
      have h2 := ensure_device_ok_device env config s h1
      rw [hE] at h2
      exact h2
    obtain ⟨dev, hdev⟩ := Option.isSome_iff_exists.mp hds
    have hs1saved : s1.saved_brightness = none := by
      have hpres := ensure_device_saved env config s
      rw [hE] at hpres
      simpa [hsaved] using hpres
    cases hr : env.readFile dev.brightness_path with
    | error e =>
      have hclose : State.on_lid_close env config s =
          (Except.error (e.withContext ctxReadBrightness), s1,
            t ++ [Op.read dev.brightness_path]) := by
        unfold State.on_lid_close
        rw [hE]
        dsimp only
        rw [hdev]
        dsimp only
        rw [hr]
      have hclose2 : State.on_lid_close env config s1 =
          (Except.error (e.withContext ctxReadBrightness), s1,
            [] ++ [Op.read dev.brightness_path]) := by
        unfold State.on_lid_close
        rw [ensure_device_of_isSome env config s1 hds]
        dsimp only
        rw [hdev]
        dsimp only
        rw [hr]
      refine Or.inr ?_
      rw [hclose]
      exact ⟨hs1saved, by rw [hclose2]⟩
    | ok cur =>
      refine Or.inl ?_
      unfold State.on_lid_close
      rw [hE]
      dsimp only
      rw [hdev]
      dsimp only
      rw [hr]
      simp only [hs1saved, Option.isNone_none, if_true]
      cases hw0 : env.writeFile dev.brightness_path 0 with
      | error e0 =>
        dsimp only
        cases hw1 : env.writeFile dev.brightness_path 1 with
        | error e1 => simp [handle_device_error_saved]
        | ok u1 => simp [handle_device_error_saved]
      | ok u0 => simp

/-- C4: a closed event while already dimmed and an open event with nothing
saved are exact no-ops — `Ok`, unchanged state, and an empty I/O trace (no
discovery, no read, no write); moreover a second closed event right after a
first one (same environment) leaves the state exactly where the first left
it, and once a snapshot exists the repeat is the empty-trace no-op. -/
theorem lid_change_noop_idempotent (env : Env) (config : Config) (s : State) :
    (s.saved_brightness.isSome = true →
      State.handle_lid_change env config s true = (Except.ok (), s, [])) ∧
    (s.saved_brightness = none →
      State.handle_lid_change env config s false = (Except.ok (), s, [])) ∧
    ((State.handle_lid_change env config s true).2.1.saved_brightness.isSome = true →
      State.handle_lid_change env config
          (State.handle_lid_change env config s true).2.1 true =
        (Except.ok (), (State.handle_lid_change env config s true).2.1, [])) ∧
    (State.handle_lid_change env config
        (State.handle_lid_change env config s true).2.1 true).2.1 =
      (State.handle_lid_change env config s true).2.1 := by
  have noopClosed : ∀ s2 : State, s2.saved_brightness.isSome = true →
      State.handle_lid_change env config s2 true = (Except.ok (), s2, []) := by
    intro s2 h
    obtain ⟨v, hv⟩ := Option.isSome_iff_exists.mp h
    simp [State.handle_lid_change, hv]
  refine ⟨noopClosed s, ?_, noopClosed _, ?_⟩
  · intro h
    simp [State.handle_lid_change, h]
  · cases hs : s.saved_brightness with
    | some v =>
      have h1 := noopClosed s (by simp [hs])
      rw [h1]
      dsimp only
      rw [h1]
    | none =>
      have h1 : State.handle_lid_change env config s true =
          State.on_lid_close env config s := by
        simp [State.handle_lid_change, hs]
      rw [h1]
      rcases on_lid_close_saved_or_fixed env config s hs with h2 | ⟨h2, h3⟩
      · rw [noopClosed _ h2]
      · have h4 : State.handle_lid_change env config
            (State.on_lid_close env config s).2.1 true =
            State.on_lid_close env config (State.on_lid_close env config s).2.1 := by
          simp [State.handle_lid_change, h2]
        rw [h4]
        exact h3

/-- `on_lid_open` attempts at most one write. -/
theorem on_lid_open_writeCount (env : Env) (config : Config) (s : State) :
    writeCount (State.on_lid_open env config s).2.2 ≤ 1 := by
  unfold State.on_lid_open
  cases hs : s.saved_brightness with
  | none => simp [writeCount]
  | some saved =>
    dsimp only
    rcases hE : State.ensure_device env config s with ⟨r, s1, t⟩
    have ht : writeCount t = 0 := by
      have h := ensure_device_writeCount env config s
      rw [hE] at h
      exact h
    cases r with
    | error e =>
      dsimp only
      simp [ht]
    | ok u =>
      dsimp only
      cases hdev : s1.device with
      | none =>
        dsimp only
        omega
      | some dev =>
        dsimp only
        cases hw : env.writeFile dev.brightness_path
            (rustClamp saved (min s1.restore_min dev.max_brightness)
              dev.max_brightness) with
        | error e2 =>
          dsimp only
          rw [writeCount_append, ht]
          simp [writeCount, Op.isWrite]
        | ok u2 =>
          dsimp only
          rw [writeCount_append, ht]
          simp [writeCount, Op.isWrite]

/-- C9: the shutdown path always exits successfully; with nothing saved it
does nothing at all; with a saved value it performs exactly one
`on_lid_open` restore attempt (at most one write — exactly one when a device
is selected, with the clamped restore target), and a failure of that attempt
does not change the successful exit. -/
theorem mainShutdown_final_restore (env : Env) (config : Config) (s : State) :
    (mainShutdown env config s).1 = Except.ok () ∧
    (s.saved_brightness = none → mainShutdown env config s = (Except.ok (), s, [])) ∧
    (s.saved_brightness.isSome = true →
      (mainShutdown env config s).2 = (State.on_lid_open env config s).2 ∧
      writeCount (mainShutdown env config s).2.2 ≤ 1) ∧
    (∀ v dev, s.saved_brightness = some v → s.device = some dev →
      (mainShutdown env config s).2.2 =
        [Op.write dev.brightness_path
          (rustClamp v (min s.restore_min dev.max_brightness) dev.max_brightness)]) := by
  refine ⟨rfl, ?_, ?_, ?_⟩
  · intro h
    simp [mainShutdown, State.restore_on_exit, h]
  · intro h
    obtain ⟨v, hv⟩ := Option.isSome_iff_exists.mp h
    have hro : State.restore_on_exit env config s = State.on_lid_open env config s := by
      simp [State.restore_on_exit, hv]
    have hms : mainShutdown env config s =
        (Except.ok (), (State.on_lid_open env config s).2.1,
          (State.on_lid_open env config s).2.2) := by
      unfold mainShutdown
      rw [hro]
    constructor
    · rw [hms]
    · rw [hms]
      exact on_lid_open_writeCount env config s
  · intro v dev hv hdev
    have hro : State.restore_on_exit env config s = State.on_lid_open env config s := by
      simp [State.restore_on_exit, hv]
    have hms : (mainShutdown env config s).2.2 = (State.on_lid_open env config s).2.2 := by
      unfold mainShutdown
      rw [hro]
    rw [hms]
    exact on_lid_open_trace_of_device env config s dev v hv hdev

/-- C10: a closed event from the un-dimmed state that fails at discovery or
at the brightness read returns that error with `saved_brightness` still
`None` and no write attempted, and a subsequent open event (any
environment) is a no-op performing no I/O at all. -/
theorem lid_close_failure_no_restore (env env2 : Env) (config : Config) (s : State)
    (hsaved : s.saved_brightness = none) :
    (∀ e s1 t, State.ensure_device env config s = (Except.error e, s1, t) →
      State.handle_lid_change env config s true = (Except.error e, s1, t) ∧
      s1.saved_brightness = none ∧
      writeCount t = 0 ∧
      State.handle_lid_change env2 config s1 false = (Except.ok (), s1, [])) ∧
    (∀ s1 t dev e, State.ensure_device env config s = (Except.ok (), s1, t) →
      s1.device = some dev →
      env.readFile dev.brightness_path = Except.error e →
      State.handle_lid_change env config s true =
        (Except.error (e.withContext ctxReadBrightness), s1,
          t ++ [Op.read dev.brightness_path]) ∧
      s1.saved_brightness = none ∧
      writeCount (t ++ [Op.read dev.brightness_path]) = 0 ∧
      State.handle_lid_change env2 config s1 false = (Except.ok (), s1, [])) := by
  have hlc : State.handle_lid_change env config s true = State.on_lid_close env config s := by
    simp [State.handle_lid_change, hsaved]
  constructor
  · intro e s1 t hE
    have hs1 : s1 = s := by
      have h1 : (State.ensure_device env config s).1 = Except.error e := by rw [hE]
      have h2 := ensure_device_error_state env config s e h1
      rw [hE] at h2
      exact h2
    have hwc : writeCount t = 0 := by
      have h := ensure_device_writeCount env config s
      rw [hE] at h
      exact h
    refine ⟨?_, ?_, hwc, ?_⟩
    · rw [hlc]
      unfold State.on_lid_close
      rw [hE]
    · rw [hs1]
      exact hsaved
    · subst hs1
      simp [State.handle_lid_change, hsaved]
  · intro s1 t dev e hE hdev hread
    have hs1saved : s1.saved_brightness = none := by
      have hpres := ensure_device_saved env config s
      rw [hE] at hpres
      simpa [hsaved] using hpres
    have hwc : writeCount t = 0 := by
      have h := ensure_device_writeCount env config s
      rw [hE] at h
      exact h
    refine ⟨?_, hs1saved, ?_, ?_⟩
    · rw [hlc]
      unfold State.on_lid_close
      rw [hE]
      dsimp only
      rw [hdev]
      dsimp only
      rw [hread]
    · rw [writeCount_append, hwc]
      simp [writeCount, Op.isWrite]
    · simp [State.handle_lid_change, hs1saved]

/-! Concrete fixtures used by the closed instantiations below. -/

def intelDevice : Backlight :=
  ⟨intelBacklightName, brightnessPathOf intelBacklightName, 100⟩

def defaultConfig : Config := ⟨none⟩

def ioNotFoundErr : Error := ⟨[ErrCause.io true]⟩

def ioOtherErr : Error := ⟨[ErrCause.io false]⟩

def envOk : Env :=
  ⟨Except.ok [intelBacklightName], fun _ => Except.ok 80, fun _ _ => Except.ok (), 0⟩

def envWriteFail : Env :=
  ⟨Except.ok [intelBacklightName], fun _ => Except.ok 80,
    fun _ _ => Except.error ioOtherErr, 0⟩

def envReadFail : Env :=
  ⟨Except.ok [intelBacklightName], fun _ => Except.error ioNotFoundErr,
    fun _ _ => Except.ok (), 0⟩

def stateSaved : State := ⟨some intelDevice, some 50, 1, none⟩

def stateUnsaved : State := ⟨some intelDevice, none, 1, none⟩

/-- C1 witness: all hypotheses hold at a concrete state and the restore
target for `saved = 50`, floor 1, max 100 is the single value written. -/
theorem lid_open_restore_target_witness :
    stateSaved.saved_brightness = some 50 ∧ stateSaved.device = some intelDevice ∧
    ((State.handle_lid_change envOk defaultConfig stateSaved false).2.2 =
      [Op.write intelDevice.brightness_path
        (rustClamp 50 (min stateSaved.restore_min intelDevice.max_brightness)
          intelDevice.max_brightness)] ∧
     rustClamp 50 (min 1 100) 100 = 50 ∧
     rustClamp 0 (min 1 100) 100 = 1 ∧
     rustClamp 5 (min 10 100) 100 = 10) :=
  ⟨rfl, rfl, lid_open_restore_target envOk defaultConfig stateSaved intelDevice 50 rfl rfl⟩

/-- C2 witness: at a concrete failing write, the handler still returns `Ok`
and the saved value survives. -/
theorem lid_open_write_result_witness :
    envWriteFail.writeFile intelDevice.brightness_path
        (rustClamp 50 (min stateSaved.restore_min intelDevice.max_brightness)
          intelDevice.max_brightness) = Except.error ioOtherErr ∧
    (State.handle_lid_change envWriteFail defaultConfig stateSaved false).1 =
      Except.ok () ∧
    (State.handle_lid_change envWriteFail defaultConfig
        stateSaved false).2.1.saved_brightness = some 50 :=
  ⟨rfl,
   ((lid_open_write_result envWriteFail defaultConfig stateSaved stateSaved []
      intelDevice 50 rfl rfl rfl).2 ioOtherErr rfl).1,
   ((lid_open_write_result envWriteFail defaultConfig stateSaved stateSaved []
      intelDevice 50 rfl rfl rfl).2 ioOtherErr rfl).2.1⟩

/-- C3 witness: concrete closed event whose read succeeds (80) while both
writes fail: the snapshot is taken, the fallback write of 1 appears in the
trace, and the handler returns `Ok`. -/
theorem lid_close_read_ok_spec_witness :
    stateUnsaved.saved_brightness = none ∧
    envWriteFail.readFile intelDevice.brightness_path = Except.ok 80 ∧
    ((State.handle_lid_change envWriteFail defaultConfig stateUnsaved true).1 =
        Except.ok () ∧
      (State.handle_lid_change envWriteFail defaultConfig
          stateUnsaved true).2.1.saved_brightness = some 80 ∧
      (State.handle_lid_change envWriteFail defaultConfig stateUnsaved true).2.2 =
        [] ++ [Op.read intelDevice.brightness_path,
               Op.write intelDevice.brightness_path 0] ++
          (match envWriteFail.writeFile intelDevice.brightness_path 0 with
           | Except.ok _ => []
           | Except.error _ => [Op.write intelDevice.brightness_path 1])) :=
  ⟨rfl, rfl,
   lid_close_read_ok_spec envWriteFail defaultConfig stateUnsaved stateUnsaved []
     intelDevice 80 rfl rfl rfl rfl⟩

/-- C4 witness: a closed event at a concrete already-dimmed state is the
exact no-op. -/
theorem lid_change_noop_idempotent_witness :
    stateSaved.saved_brightness.isSome = true ∧
    State.handle_lid_change envOk defaultConfig stateSaved true =
      (Except.ok (), stateSaved, []) :=
  ⟨rfl, (lid_change_noop_idempotent envOk defaultConfig stateSaved).1 rfl⟩

/-- C5 witness: a concrete not-found error clears the selected device. -/
theorem handle_device_error_frame_witness :
    ioNotFoundErr.hasNotFound = true ∧
    (State.handle_device_error 0 ioNotFoundErr stateSaved).device = none :=
  ⟨rfl, (handle_device_error_frame 0 ioNotFoundErr stateSaved).1 rfl⟩

/-- C6 witness: with enumeration `[intel_backlight]` and no override, the
selected device is `intel_backlight`. -/
theorem discover_device_selection_witness :
    envOk.listDevices = Except.ok [intelBacklightName] ∧
    discover_device envOk none =
      ((Backlight.new envOk intelBacklightName).1,
        Op.listDevices :: (Backlight.new envOk intelBacklightName).2) :=
  ⟨rfl,
   (discover_device_selection envOk [intelBacklightName] rfl).2.2.2.1 (by simp)⟩

/-- C7 witness: the backoff `run_loop` constructs satisfies the invariant,
and its first six delays stay below the configured maximum. -/
theorem backoff_monotone_bounded_witness :
    runLoopBackoff.current ≤ runLoopBackoff.max ∧
    ∀ d ∈ Backoff.delays runLoopBackoff 6, d ≤ runLoopBackoff.max :=
  ⟨by decide, (backoff_monotone_bounded runLoopBackoff (by decide) 6).2.1⟩

/-- C9 witness: shutdown with `saved = 50` and a selected device performs
exactly the one restore write. -/
theorem mainShutdown_final_restore_witness :
    stateSaved.saved_brightness = some 50 ∧ stateSaved.device = some intelDevice ∧
    (mainShutdown envOk defaultConfig stateSaved).2.2 =
      [Op.write intelDevice.brightness_path
        (rustClamp 50 (min stateSaved.restore_min intelDevice.max_brightness)
          intelDevice.max_brightness)] :=
  ⟨rfl, rfl,
   (mainShutdown_final_restore envOk defaultConfig stateSaved).2.2.2 50 intelDevice rfl rfl⟩

/-- C10 witness: a concrete closed event whose brightness read fails returns
the error, leaves nothing saved, writes nothing, and the following open
event is the empty-trace no-op. -/
theorem lid_close_failure_no_restore_witness :
    stateUnsaved.saved_brightness = none ∧
    (State.handle_lid_change envReadFail defaultConfig stateUnsaved true =
        (Except.error (ioNotFoundErr.withContext ctxReadBrightness), stateUnsaved,
          [] ++ [Op.read intelDevice.brightness_path]) ∧
      stateUnsaved.saved_brightness = none ∧
      writeCount ([] ++ [Op.read intelDevice.brightness_path]) = 0 ∧
      State.handle_lid_change envOk defaultConfig stateUnsaved false =
        (Except.ok (), stateUnsaved, [])) :=
  ⟨rfl,
   (lid_close_failure_no_restore envReadFail envOk defaultConfig stateUnsaved rfl).2
     stateUnsaved [] intelDevice ioNotFoundErr rfl rfl rfl⟩
